import Mathlib

/-!
Shallow embedding of the genielibs getter modules
(`genie/libs/sdk/apis/iosxe/interface/get.py`,
`genie/libs/sdk/apis/iosxe/mpls/get.py`) and of the NTP ops behaviour
exercised by `genie/libs/ops/ntp/iosxe/tests/test_ntp.py`.

Parsed command output is modelled by the JSON-like type `Val` (the external
parser returns nested string-keyed dictionaries with scalar leaves).  The
device is modelled as an oracle from command strings to parse results; the
Python exceptions that the code raises, catches or propagates are modelled
by the `PyErr` type, and every fallible computation lives in `Except PyErr`.
External framework helpers that are not part of this repository
(Common.convert_intf_name, int_to_mask, get_config_dict, the find/GroupKeys
query helpers, get_delta_time_from_outputs) are taken as parameters.
-/

/-- Python exceptions that occur in the embedded code. -/
inductive PyErr where
  | schemaEmptyParserError
  | subCommandFailure
  | valueError
  | keyError
  | attributeError
  | typeError
  | indexError
  | zeroDivisionError
deriving DecidableEq, Repr

/-- JSON-like value: the shape of structured parser output and of the
values the getters navigate and return. -/
inductive Val where
  | s : String → Val
  | i : Int → Val
  | b : Bool → Val
  | d : List (String × Val) → Val
  | l : List Val → Val

/-- First-match lookup in an association list (Python dict indexing). -/
def lookupKV : List (String × Val) → String → Option Val
  | [], _ => none
  | (k, v) :: rest, key => if k = key then some v else lookupKV rest key

/-- Python `d.get(key, None)` / `d.get(key, default)` style access:
no exception, `none` when the key is absent or the value is not a dict. -/
def Val.get? : Val → String → Option Val
  | .d kvs, key => lookupKV kvs key
  | _, _ => none

/-- Python `d[key]`: KeyError when absent, TypeError when not a dict. -/
def Val.get : Val → String → Except PyErr Val
  | .d kvs, key =>
      match lookupKV kvs key with
      | some v => .ok v
      | none => .error .keyError
  | _, _ => .error .typeError

/-- Python `key in d` (on the well-typed dict inputs the getters receive). -/
def Val.hasKey (v : Val) (key : String) : Bool :=
  (v.get? key).isSome

/-- Python truthiness of the values that occur here. -/
def valTruthy : Val → Bool
  | .s x => x ≠ ""
  | .i n => n ≠ 0
  | .b bv => bv
  | .d kvs => !kvs.isEmpty
  | .l xs => !xs.isEmpty

/-- Python `v == some_string` (False on any non-string value). -/
def valEqStr (v : Val) (x : String) : Bool :=
  match v with
  | .s y => y = x
  | _ => false

/-- Python arithmetic use of a value: an int, or TypeError. -/
def valToInt : Val → Except PyErr Int
  | .i n => .ok n
  | _ => .error .typeError

/-- Substring test on char lists (Python `needle in haystack` for str). -/
def listInfix (needle : List Char) : List Char → Bool
  | [] => needle.isEmpty
  | c :: t => needle.isPrefixOf (c :: t) || listInfix needle t

/-- Python `needle in haystack` for strings. -/
def strContains (needle hay : String) : Bool :=
  listInfix needle.toList hay.toList

/-- Python str.capitalize: first character upper-cased, rest lower-cased. -/
def pyCapitalize (x : String) : String :=
  match x.toList with
  | [] => ""
  | c :: rest => String.mk (c.toUpper :: rest.map Char.toLower)

/-- The device parse layer: command string to structured output, raising
SchemaEmptyParserError when the command produced no data. -/
def Oracle := String → Except PyErr Val

/-- The device execute layer: command string to raw text, raising
SubCommandFailure when the device rejects the command. -/
def ExecOracle := String → Except PyErr String

/-! ## interface/get.py : simple parse-and-index getters -/

/-- get_interface_mtu_size: parse `show interfaces <interface>`, return
`out[interface]["mtu"]`; SchemaEmptyParserError is caught and yields None. -/
def get_interface_mtu_size (dev : Oracle) (interface : String) :
    Except PyErr (Option Val) :=
  match dev ("show interfaces " ++ interface) with
  | .error .schemaEmptyParserError => .ok none
  | .error e => .error e
  | .ok out => do
      let v ← out.get interface
      let m ← v.get "mtu"
      return some m

/-- get_interface_mac_address: parse `show interfaces <interface>`, return
`out[interface]["mac_address"]`; SchemaEmptyParserError caught to None. -/
def get_interface_mac_address (dev : Oracle) (interface : String) :
    Except PyErr (Option Val) :=
  match dev ("show interfaces " ++ interface) with
  | .error .schemaEmptyParserError => .ok none
  | .error e => .error e
  | .ok out => do
      let v ← out.get interface
      let m ← v.get "mac_address"
      return some m

/-- get_interface_qlimit_bytes: parse the bqs queue command and retrieve the
qlimit via the external find/GroupKeys helpers, here the parameter
`findQlimit`; SchemaEmptyParserError caught to None. -/
def get_interface_qlimit_bytes (findQlimit : Val → Option Val)
    (dev : Oracle) (interface : String) : Except PyErr (Option Val) :=
  match dev ("show platform hardware qfp active infrastructure bqs "
      ++ "queue output default interface " ++ interface) with
  | .error .schemaEmptyParserError => .ok none
  | .error e => .error e
  | .ok out => .ok (findQlimit out)

/-- get_interface_ip_address: parse `show ip interface brief <interface>`
and return the ip_address unless absent or equal to "unassigned";
SchemaEmptyParserError caught to None. -/
def get_interface_ip_address (dev : Oracle) (interface : String) :
    Except PyErr (Option Val) :=
  match dev ("show ip interface brief " ++ interface) with
  | .error .schemaEmptyParserError => .ok none
  | .error e => .error e
  | .ok out => do
      let intfs ← out.get "interface"
      let address := ((intfs.get? interface).getD (.d [])).get? "ip_address"
      if !intfs.hasKey interface then
        return none
      else do
        let entry ← intfs.get interface
        if !entry.hasKey "ip_address"
            || (match address with
                | some v => valEqStr v "unassigned"
                | none => false) then
          return none
        else do
          let v ← entry.get "ip_address"
          return some v

/-! ## interface/get.py : loopback getters -/

/-- Python string comparison, as used by sorted(): lexicographic comparison
of the character sequences by code point. -/
def strLexLe (a b : String) : Prop :=
  a.toList ≤ b.toList

instance : DecidableRel strLexLe :=
  fun a b => inferInstanceAs (Decidable (a.toList ≤ b.toList))

instance : IsTotal String strLexLe :=
  ⟨fun a b => le_total a.toList b.toList⟩

instance : IsTrans String strLexLe :=
  ⟨fun _ _ _ h1 h2 => le_trans h1 h2⟩

/-- Python sorted() on the keys of a dict. -/
def pySorted (keys : List String) : List String :=
  List.insertionSort strLexLe keys

/-- The body of the loop in get_interface_loopback_ip_address: walk the
sorted interface names, collect `(intf, out["interface"][intf]["ip_address"])`
for the names containing "Loopback", stop once the running count reaches
`num` (the count is compared after incrementing, so a non-positive `num`
never stops the loop). -/
def loopbackLoop (entries : List (String × Val)) (num : Int) :
    List String → Int → Except PyErr (List (String × Val))
  | [], _ => .ok []
  | intf :: rest, count =>
    if strContains "Loopback" intf then
      match Val.get (.d entries) intf with
      | .error e => .error e
      | .ok entry =>
        match entry.get "ip_address" with
        | .error e => .error e
        | .ok ip =>
          if count + 1 = num then
            .ok [(intf, ip)]
          else
            match loopbackLoop entries num rest (count + 1) with
            | .error e => .error e
            | .ok tail => .ok ((intf, ip) :: tail)
    else
      loopbackLoop entries num rest count

/-- get_interface_loopback_ip_address: parse
`show ip interface brief | include Loopback`, SchemaEmptyParserError caught
to the empty list, then iterate `sorted(out["interface"].keys())`. -/
def get_interface_loopback_ip_address (dev : Oracle) (num : Int) :
    Except PyErr (List (String × Val)) :=
  match dev "show ip interface brief | include Loopback" with
  | .error .schemaEmptyParserError => .ok []
  | .error e => .error e
  | .ok out =>
    match out.get "interface" with
    | .error e => .error e
    | .ok intfs =>
      match intfs with
      | .d entries =>
          loopbackLoop entries num (pySorted (entries.map Prod.fst)) 0
      | _ => .error .attributeError

/-- get_unused_loopback_interface: on SchemaEmptyParserError return the
string "Loopback0"; otherwise, when the output is truthy, take the last of
the sorted interface names and increment its numeric suffix. -/
def get_unused_loopback_interface (dev : Oracle) :
    Except PyErr (Option String) :=
  match dev "show ip interface brief | include Loopback" with
  | .error .schemaEmptyParserError => .ok (some "Loopback0")
  | .error e => .error e
  | .ok out =>
    if valTruthy out then
      match out.get "interface" with
      | .error e => .error e
      | .ok intfs =>
        match intfs with
        | .d kvs =>
          match (pySorted (kvs.map Prod.fst)).getLast? with
          | none => .error .indexError
          | some loopback =>
            match (loopback.drop 8).toInt? with
            | none => .error .valueError
            | some n => .ok (some ("Loopback" ++ toString (n + 1)))
        | _ => .error .attributeError
    else
      .ok none

/-! ## interface/get.py : search getters over `show interfaces` output -/

/-- Inner loop of get_interface_with_mask: over the ipv4 (or other address
family) sub-dict of one interface, return the "ip" of the first entry whose
"prefix_length" equals the requested netmask string. -/
def withMaskInner (netmask : String) :
    List (String × Val) → Except PyErr (Option Val)
  | [] => .ok none
  | (_, ipd) :: rest =>
    match ipd.get "prefix_length" with
    | .error e => .error e
    | .ok pl =>
      if valEqStr pl netmask then
        match ipd.get "ip" with
        | .error e => .error e
        | .ok ipv => .ok (some ipv)
      else
        withMaskInner netmask rest

/-- Outer loop of get_interface_with_mask over the interfaces of the parsed
`show interfaces` output. -/
def withMaskOuter (netmask address_family : String) :
    List (String × Val) → Except PyErr (Option String × Option Val)
  | [] => .ok (none, none)
  | (intf, v) :: rest =>
    if v.hasKey address_family then
      match v.get address_family with
      | .error e => .error e
      | .ok afv =>
        match afv with
        | .d ips =>
          match withMaskInner netmask ips with
          | .error e => .error e
          | .ok (some ipv) => .ok (some intf, some ipv)
          | .ok none => withMaskOuter netmask address_family rest
        | _ => .error .typeError
    else
      withMaskOuter netmask address_family rest

/-- get_interface_with_mask: parse `show interfaces` and return the first
(interface, ip) whose prefix_length equals the netmask;
SchemaEmptyParserError caught to (None, None). -/
def get_interface_with_mask (dev : Oracle)
    (netmask address_family : String) :
    Except PyErr (Option String × Option Val) :=
  match dev "show interfaces" with
  | .error .schemaEmptyParserError => .ok (none, none)
  | .error e => .error e
  | .ok out =>
    match out with
    | .d entries => withMaskOuter netmask address_family entries
    | _ => .error .typeError

/-- Loop of get_interface_with_up_state: first interface whose oper_status
is "up" and whose virtual-ness (a "." in the name) matches the flag. -/
def upStateLoop (virtual_interface : Option Bool) :
    List (String × Val) → Except PyErr (Option String)
  | [] => .ok none
  | (interface, dat) :: rest =>
    match dat.get "oper_status" with
    | .error e => .error e
    | .ok st =>
      if valEqStr st "up" then
        match virtual_interface with
        | none => .ok (some interface)
        | some vb =>
          if vb = strContains "." interface then
            .ok (some interface)
          else
            upStateLoop virtual_interface rest
      else
        upStateLoop virtual_interface rest

/-- get_interface_with_up_state: parse
`show ip interface | include ^<type>`; SchemaEmptyParserError caught to
None. -/
def get_interface_with_up_state (dev : Oracle) (interface_type : String)
    (virtual_interface : Option Bool) : Except PyErr (Option String) :=
  match dev ("show ip interface | include ^" ++ interface_type) with
  | .error .schemaEmptyParserError => .ok none
  | .error e => .error e
  | .ok out =>
    match out with
    | .d entries => upStateLoop virtual_interface entries
    | _ => .error .typeError

/-- get_interface_carrier_delay: `out[interface]` then the optional key
`carrier_delay_<type>`; SchemaEmptyParserError caught to None. -/
def get_interface_carrier_delay (dev : Oracle)
    (interface delay_type : String) : Except PyErr (Option Val) :=
  match dev ("show interfaces " ++ interface) with
  | .error .schemaEmptyParserError => .ok none
  | .error e => .error e
  | .ok out =>
    match out.get interface with
    | .error e => .error e
    | .ok intf_dict => .ok (intf_dict.get? ("carrier_delay_" ++ delay_type))

/-- Loop of get_interface_ip_and_mask: for each interface with an "ipv4"
entry, take its first address (the inner Python loop breaks immediately) and
overwrite the accumulator; the external int_to_mask helper is a parameter. -/
def ipMaskLoop (int_to_mask : Val → Val) (usePfx : Bool) :
    List (String × Val) → Option Val × Option Val →
    Except PyErr (Option Val × Option Val)
  | [], acc => .ok acc
  | (_, dat) :: rest, acc =>
    if dat.hasKey "ipv4" then
      match dat.get "ipv4" with
      | .error e => .error e
      | .ok afv =>
        match afv with
        | .d [] => ipMaskLoop int_to_mask usePfx rest acc
        | .d ((ipk, ipd) :: _) =>
          match (if usePfx then .ok (.s ipk) else ipd.get "ip" :
              Except PyErr Val) with
          | .error e => .error e
          | .ok ip =>
            match ipd.get "prefix_length" with
            | .error e => .error e
            | .ok pl =>
              ipMaskLoop int_to_mask usePfx rest
                (some ip, some (int_to_mask pl))
        | _ => .error .attributeError
    else
      ipMaskLoop int_to_mask usePfx rest acc

/-- get_interface_ip_and_mask: parse `show interfaces <interface>`;
SchemaEmptyParserError caught to (None, None). -/
def get_interface_ip_and_mask (int_to_mask : Val → Val) (dev : Oracle)
    (interface : String) (usePfx : Bool) :
    Except PyErr (Option Val × Option Val) :=
  match dev ("show interfaces " ++ interface) with
  | .error .schemaEmptyParserError => .ok (none, none)
  | .error e => .error e
  | .ok out =>
    match out with
    | .d entries => ipMaskLoop int_to_mask usePfx entries (none, none)
    | _ => .error .attributeError

/-- get_interface_interfaces_under_vrf: parse `show vrf <vrf>` and return
`out["vrf"][vrf]["interfaces"]` when the whole chain of keys is present,
otherwise the empty list; SchemaEmptyParserError caught to the empty list. -/
def get_interface_interfaces_under_vrf (dev : Oracle) (vrf : String) :
    Except PyErr Val :=
  match dev ("show vrf " ++ vrf) with
  | .error .schemaEmptyParserError => .ok (.l [])
  | .error e => .error e
  | .ok out =>
    .ok (match out.get? "vrf" with
      | some vrfs =>
        match vrfs.get? vrf with
        | some vd =>
          match vd.get? "interfaces" with
          | some xs => xs
          | none => .l []
        | none => .l []
      | none => .l [])

/-! ## interface/get.py : counters, etherchannel, running-config getters -/

/-- The indexing step of get_interface_packet_counter:
`output[interface].get("counters", {}).get(counter_field, None)`. -/
def packetCounterFromOutput (output : Val)
    (interface counter_field : String) : Except PyErr (Option Val) :=
  match output.get interface with
  | .error e => .error e
  | .ok entry =>
    .ok (((entry.get? "counters").getD (.d [])).get? counter_field)

/-- get_interface_packet_counter: when the given output is falsy (None or an
empty dict) parse `show interfaces <interface>` from the device first,
catching SchemaEmptyParserError to None; then index the counters. -/
def get_interface_packet_counter (dev : Oracle)
    (interface counter_field : String) (output : Option Val) :
    Except PyErr (Option Val) :=
  match (match output with
    | some o => if valTruthy o then some o else none
    | none => none) with
  | some o => packetCounterFromOutput o interface counter_field
  | none =>
    match dev ("show interfaces " ++ interface) with
    | .error .schemaEmptyParserError => .ok none
    | .error e => .error e
    | .ok o => packetCounterFromOutput o interface counter_field

/-- Loop of get_bundled_interface over the members of the port channel:
first member whose "bundled" value is truthy and that is not the excluded
interface (Python `if exclude_interface and intf == exclude_interface`). -/
def bundledLoop (exclude_interface : Option String) :
    List (String × Val) → Except PyErr (Option String)
  | [] => .ok none
  | (intf, md) :: rest =>
    match md.get "bundled" with
    | .error e => .error e
    | .ok bv =>
      if valTruthy bv then
        match exclude_interface with
        | some ex =>
          if ex ≠ "" && intf = ex then
            bundledLoop exclude_interface rest
          else
            .ok (some intf)
        | none => .ok (some intf)
      else
        bundledLoop exclude_interface rest

/-- get_bundled_interface: parse `show etherchannel summary` WITHOUT any
try/except (a SchemaEmptyParserError from the parse propagates), then walk
`out["interfaces"][port_channel.capitalize()]["members"]`. -/
def get_bundled_interface (dev : Oracle) (port_channel : String)
    (exclude_interface : Option String) : Except PyErr (Option String) :=
  match dev "show etherchannel summary" with
  | .error e => .error e
  | .ok out =>
    match (if valTruthy out then out.get? "interfaces" else none) with
    | none => .ok none
    | some intfs =>
      match intfs.get? (pyCapitalize port_channel) with
      | none => .ok none
      | some pcd =>
        match pcd.get? "members" with
        | none => .ok none
        | some members =>
          match members with
          | .d kvs => bundledLoop exclude_interface kvs
          | _ => .error .typeError

/-- get_interface_switchport_access_vlan: parse
`show interfaces switchport`; the guarded chain
`if out and interface in out and "access_vlan" in out[interface]` yields the
value or None; SchemaEmptyParserError caught to None. -/
def get_interface_switchport_access_vlan (dev : Oracle)
    (interface : String) : Except PyErr (Option Val) :=
  match dev "show interfaces switchport" with
  | .error .schemaEmptyParserError => .ok none
  | .error e => .error e
  | .ok out =>
    .ok (match out.get? interface with
      | some entry => entry.get? "access_vlan"
      | none => none)

/-- get_interface_port_channel_members: the navigation
`out[interface]["port_channel"]["port_channel_member_intfs"]` with KeyError
caught to None; SchemaEmptyParserError caught to None. -/
def get_interface_port_channel_members (dev : Oracle)
    (interface : String) : Except PyErr (Option Val) :=
  match dev ("show interfaces " ++ interface) with
  | .error .schemaEmptyParserError => .ok none
  | .error e => .error e
  | .ok out =>
    match (do
        let a ← out.get interface
        let b ← a.get "port_channel"
        b.get "port_channel_member_intfs" : Except PyErr Val) with
    | .ok v => .ok (some v)
    | .error .keyError => .ok none
    | .error e => .error e

/-- get_interface_running_config: execute
`show running-config interface <interface>` (after running the external
Common.convert_intf_name helper, the parameter `convert`), catching
SubCommandFailure to the empty dict, then apply the external
get_config_dict helper (the parameter of the same name). -/
def get_interface_running_config (convert : String → String)
    (get_config_dict : String → Val) (dev : ExecOracle)
    (interface : String) : Except PyErr Val :=
  match dev ("show running-config interface " ++ convert interface) with
  | .error .subCommandFailure => .ok (.d [])
  | .error e => .error e
  | .ok output => .ok (get_config_dict output)

/-! Regex `^ip\s+address\s+(\S+)\s+(\S+)` of
get_interface_address_mask_running_config, via re.match (anchored at the
start of the line, the rest of the line unconstrained). -/

/-- Match a literal character sequence. -/
def dropLit : List Char → List Char → Option (List Char)
  | [], cs => some cs
  | p :: ps, c :: cs => if c = p then dropLit ps cs else none
  | _ :: _, [] => none

/-- Match one-or-more whitespace characters, greedily. -/
def dropWs1 : List Char → Option (List Char)
  | c :: cs =>
    if c.isWhitespace then some (cs.dropWhile Char.isWhitespace) else none
  | [] => none

/-- Match one-or-more non-whitespace characters, greedily; return the
captured group and the rest. -/
def takeNonWs1 : List Char → Option (List Char × List Char)
  | c :: cs =>
    if c.isWhitespace then
      none
    else
      some (c :: cs.takeWhile (fun x => !x.isWhitespace),
            cs.dropWhile (fun x => !x.isWhitespace))
  | [] => none

/-- re.match of `ip\s+address\s+(\S+)\s+(\S+)` against one line, returning
the two captured groups. -/
def matchIpAddressLine (line : String) : Option (String × String) := do
  let cs0 ← dropLit ("ip".toList) line.toList
  let cs1 ← dropWs1 cs0
  let cs2 ← dropLit ("address".toList) cs1
  let cs3 ← dropWs1 cs2
  let (a, cs4) ← takeNonWs1 cs3
  let cs5 ← dropWs1 cs4
  let (m, _) ← takeNonWs1 cs5
  return (String.mk a, String.mk m)

/-- The line loop of get_interface_address_mask_running_config: first
stripped line matching the regex. -/
def firstIpAddressMatch : List String → Option (String × String)
  | [] => none
  | line :: rest =>
    match matchIpAddressLine line.trim with
    | some r => some r
    | none => firstIpAddressMatch rest

/-- get_interface_address_mask_running_config: execute the running-config
command (SubCommandFailure caught to the tuple (None, None), like an empty
output); scan the lines for the first `ip address A M`; when no line
matches the function falls off the loop and returns the bare Python None,
modelled as the outer `none`. -/
def get_interface_address_mask_running_config (convert : String → String)
    (dev : ExecOracle) (interface : String) :
    Except PyErr (Option (Option String × Option String)) :=
  match dev ("show running-config interface " ++ convert interface) with
  | .error .subCommandFailure => .ok (some (none, none))
  | .error e => .error e
  | .ok output =>
    if output = "" then
      .ok (some (none, none))
    else
      match firstIpAddressMatch (output.splitOn "\n") with
      | some (a, m) => .ok (some (some a, some m))
      | none => .ok none

/-! ## mpls/get.py -/

/-- get_interface_interfaces_ldp_enabled: parse
`show mpls interfaces detail` (SchemaEmptyParserError caught to the empty
list); take the keys of `out["vrf"][vrf]["interfaces"]` with KeyError caught
to the empty list, mapping the external Common.convert_intf_name helper
(the parameter `convert`) over them; an empty vrf argument defaults to
"default". -/
def get_interface_interfaces_ldp_enabled (convert : String → String)
    (dev : Oracle) (vrf : String) : Except PyErr (List String) :=
  match dev "show mpls interfaces detail" with
  | .error .schemaEmptyParserError => .ok []
  | .error e => .error e
  | .ok out =>
    match (do
        let a ← out.get "vrf"
        let b ← a.get (if vrf ≠ "" then vrf else "default")
        b.get "interfaces" : Except PyErr Val) with
    | .error .keyError => .ok []
    | .error e => .error e
    | .ok c =>
      match c with
      | .d kvs => .ok (kvs.map (fun kv => convert kv.1))
      | _ => .error .attributeError

/-- The counting loop of get_mpls_ldp_session_count: for each vrf, add the
number of keys of `out["vrf"][vrf]["peers"]`. -/
def ldpCountLoop (vrfs : List (String × Val)) :
    List (String × Val) → Int → Except PyErr Int
  | [], acc => .ok acc
  | (k, _) :: rest, acc =>
    match Val.get (.d vrfs) k with
    | .error e => .error e
    | .ok vd =>
      match vd.get "peers" with
      | .error e => .error e
      | .ok peers =>
        match peers with
        | .d ps => ldpCountLoop vrfs rest (acc + ps.length)
        | _ => .error .attributeError

/-- get_mpls_ldp_session_count: parse `show mpls ldp neighbor`
(SchemaEmptyParserError caught: the zero initialised count is returned) and
sum the peer counts over the vrfs. -/
def get_mpls_ldp_session_count (dev : Oracle) : Except PyErr Int :=
  match dev "show mpls ldp neighbor" with
  | .error .schemaEmptyParserError => .ok 0
  | .error e => .error e
  | .ok out =>
    match out.get "vrf" with
    | .error e => .error e
    | .ok vrfs =>
      match vrfs with
      | .d kvs => ldpCountLoop kvs kvs 0
      | _ => .error .typeError

/-- Python `interface in x` where x is
`...["ldp_discovery_sources"].get("interface", None)`: TypeError on None,
key membership on a dict, element membership on a list, substring on a
string. -/
def valContains (container : Option Val) (key : String) :
    Except PyErr Bool :=
  match container with
  | none => .error .typeError
  | some (.d kvs) => .ok (Val.hasKey (.d kvs) key)
  | some (.l xs) => .ok (xs.any (fun x => valEqStr x key))
  | some (.s str) => .ok (strContains key str)
  | some _ => .error .typeError

/-- Innermost loop of get_mpls_ldp_peer_state over the label_space_id
entries: the outer `some st` means the Python code executed `return state`
(with `st` the state value, itself possibly None). -/
def peerStateIdxLoop (interface : String) :
    List (String × Val) → Except PyErr (Option (Option Val))
  | [] => .ok none
  | (_, idxv) :: rest =>
    if idxv.hasKey "ldp_discovery_sources" then
      match idxv.get "ldp_discovery_sources" with
      | .error e => .error e
      | .ok lds =>
        match valContains (lds.get? "interface") interface with
        | .error e => .error e
        | .ok true => .ok (some (idxv.get? "state"))
        | .ok false => peerStateIdxLoop interface rest
    else
      peerStateIdxLoop interface rest

/-- Middle loop of get_mpls_ldp_peer_state over the peers of one vrf. -/
def peerStatePeerLoop (interface : String) :
    List (String × Val) → Except PyErr (Option (Option Val))
  | [] => .ok none
  | (_, pv) :: rest =>
    match ((pv.get? "label_space_id").getD (.d [])) with
    | .d idxs =>
      match peerStateIdxLoop interface idxs with
      | .error e => .error e
      | .ok (some st) => .ok (some st)
      | .ok none => peerStatePeerLoop interface rest
    | _ => .error .typeError

/-- Outer loop of get_mpls_ldp_peer_state over the vrfs. -/
def peerStateVrfLoop (interface : String) :
    List (String × Val) → Except PyErr (Option (Option Val))
  | [] => .ok none
  | (_, vd) :: rest =>
    match ((vd.get? "peers").getD (.d [])) with
    | .d peers =>
      match peerStatePeerLoop interface peers with
      | .error e => .error e
      | .ok (some st) => .ok (some st)
      | .ok none => peerStateVrfLoop interface rest
    | _ => .error .typeError

/-- get_mpls_ldp_peer_state: parse `show mpls ldp neighbor`
(SchemaEmptyParserError caught to None); search the nested vrf/peer/
label_space_id structure for an ldp_discovery_sources entry naming the
interface and return its state (the implicit fall-off-the-loop return is
also None). -/
def get_mpls_ldp_peer_state (dev : Oracle) (interface : String) :
    Except PyErr (Option Val) :=
  match dev "show mpls ldp neighbor" with
  | .error .schemaEmptyParserError => .ok none
  | .error e => .error e
  | .ok out =>
    if valTruthy out && out.hasKey "vrf" then
      match (out.get? "vrf").getD (.d []) with
      | .d vrfs =>
        match peerStateVrfLoop interface vrfs with
        | .error e => .error e
        | .ok (some st) => .ok st
        | .ok none => .ok none
      | _ => .error .typeError
    else
      .ok none

/-! ## interface/get.py : get_interface_netmask -/

/-- Numeric value of a dotted-quad IPv4 address, as IPv4Address orders
them. -/
def ipv4 (a b c d : Nat) : Nat :=
  ((a * 256 + b) * 256 + c) * 256 + d

/-- IPv4Address("127.0.0.0"), the bound named class_a in the source. -/
def class_a : Nat := ipv4 127 0 0 0

/-- IPv4Address("191.255.0.0"), the bound named class_b in the source. -/
def class_b : Nat := ipv4 191 255 0 0

/-- IPv4Address("223.255.255.0"), the bound named class_c in the source. -/
def class_c : Nat := ipv4 223 255 255 0

/-- The ip_class list of get_interface_netmask. -/
def ip_class : List (String × Nat) :=
  [("/8", class_a), ("/16", class_b), ("/24", class_c)]

/-- The loop of get_interface_netmask: first entry whose bound is strictly
above the address. -/
def netmaskLoop (ip_addr : Nat) : List (String × Nat) → Option String
  | [] => none
  | e :: rest => if ip_addr < e.2 then some e.1 else netmaskLoop ip_addr rest

/-- get_interface_netmask: classful netmask of an IPv4 address by strict
comparison against the three fixed bounds. -/
def get_interface_netmask (ip_address : Nat) : Option String :=
  netmaskLoop ip_address ip_class

/-! ## interface/get.py : get_interface_packet_output_rate -/

/-- The device interactions get_interface_packet_output_rate performs:
two raw `execute` calls of the same show command separated by a
`time.sleep(seconds)`, then parses of the two captured outputs. -/
structure RateDevice where
  exec1 : Except PyErr String
  exec2 : Except PyErr String
  parseWith : String → Except PyErr Val
  parseCmd : Oracle
  delta : String → String → Except PyErr Rat

/-- Observable device-facing events of get_interface_packet_output_rate. -/
inductive Ev where
  | exec : String → Ev
  | sleep : Int → Ev
deriving DecidableEq, Repr

/-- The show command sampled by get_interface_packet_output_rate. -/
def rateCmd (interface : String) : String :=
  "show interfaces " ++ interface

/-- Python round(x, 2): the value rounded to two decimal places. -/
def pyRound2 (q : Rat) : Rat :=
  (round (q * 100) : Int) / 100

/-- The two except clauses of get_interface_packet_output_rate:
SchemaEmptyParserError and ValueError are converted to None, every other
exception propagates. -/
def rateCatch : Except PyErr (Option Rat) → Except PyErr (Option Rat)
  | .error .schemaEmptyParserError => .ok none
  | .error .valueError => .ok none
  | r => r

/-- The try block of get_interface_packet_output_rate after the two
executes: parse both captured outputs, compute the elapsed time via the
external get_delta_time_from_outputs helper (the `delta` field), fetch both
out_pkts counters (None or a falsy counter short-circuits to None), and
divide the counter difference by the elapsed time, rounded to two decimal
places. -/
def rateTry (rdev : RateDevice) (interface output_before output_after :
    String) : Except PyErr (Option Rat) := do
  let parsed_output_before ← rdev.parseWith output_before
  let parsed_output_after ← rdev.parseWith output_after
  let delta_time ← rdev.delta output_before output_after
  let counter_before ← get_interface_packet_counter rdev.parseCmd
    interface "out_pkts" (some parsed_output_before)
  match counter_before with
  | none => return none
  | some cb =>
    if !valTruthy cb then
      return none
    else do
      let counter_after ← get_interface_packet_counter rdev.parseCmd
        interface "out_pkts" (some parsed_output_after)
      match counter_after with
      | none => return none
      | some ca =>
        if !valTruthy ca then
          return none
        else do
          let nb ← valToInt cb
          let na ← valToInt ca
          if delta_time = 0 then
            .error .zeroDivisionError
          else
            return some (pyRound2 (((na : Rat) - (nb : Rat)) / delta_time))

/-- get_interface_packet_output_rate: an immediate None when seconds is not
positive, otherwise sample, sleep, sample, and evaluate the try block under
the SchemaEmptyParserError / ValueError catches.  The first component is
the trace of device executes and sleeps. -/
def get_interface_packet_output_rate (rdev : RateDevice)
    (interface : String) (seconds : Int) :
    List Ev × Except PyErr (Option Rat) :=
  if seconds ≤ 0 then
    ([], .ok none)
  else
    match rdev.exec1 with
    | .error e => ([.exec (rateCmd interface)], rateCatch (.error e))
    | .ok output_before =>
      match rdev.exec2 with
      | .error e =>
        ([.exec (rateCmd interface), .sleep seconds,
          .exec (rateCmd interface)], rateCatch (.error e))
      | .ok output_after =>
        ([.exec (rateCmd interface), .sleep seconds,
          .exec (rateCmd interface)],
         rateCatch (rateTry rdev interface output_before output_after))

/-! ## NTP ops (spec-modelled)

The Ntp ops class (`genie/libs/ops/ntp/iosxe/ntp.py`) and the fixture
module (`.../tests/ntp_output.py`) are code of this repository that is not
under src/; only the unit test file is.  The definitions below are
therefore modelled from the spec: the ops class "declares which CLI outputs
are required, invokes the external parsing/learn mechanism, and assembles
results into a nested fact dictionary (info)", and the tests assert that
with the three fixed mock outputs the aggregated info equals a literal
expected dictionary, while with empty outputs the absent keys raise the
generic lookup errors. -/

/-- Modelled from the spec: the NtpOutput.ShowNtpAssociations fixture,
the parsed `show ntp associations` mock output.  The fixture module is not
under src/. -/
def NtpOutput_ShowNtpAssociations : Val := .d [
  ("clock_state", .s "synchronized"),
  ("associations_address", .s "10.16.2.2")]

/-- Modelled from the spec: the NtpOutput.ShowNtpStatus fixture, the parsed
`show ntp status` mock output.  The fixture module is not under src/. -/
def NtpOutput_ShowNtpStatus : Val := .d [
  ("actual_freq", .s "1000.4589"),
  ("clock_precision", .s "2**24"),
  ("reference_time", .s "DFA02517.D2F7B9F6"),
  ("root_dispersion", .s "0.31")]

/-- Modelled from the spec: the NtpOutput.ShowNtpConfig fixture, the parsed
`show ntp config` mock output.  The fixture module is not under src/. -/
def NtpOutput_ShowNtpConfig : Val := .d [
  ("vrf", .d [
    ("default", .d [
      ("unicast_configuration", .d [
        ("address", .d [
          ("10.4.1.1", .d [
            ("type", .d [
              ("server", .d [
                ("type", .s "server"),
                ("vrf", .s "default")])])])])])]),
    ("VRF1", .d [
      ("unicast_configuration", .d [
        ("address", .d [
          ("10.64.4.4", .d [
            ("type", .d [
              ("server", .d [
                ("type", .s "server"),
                ("vrf", .s "VRF1")])])])])])])])]

/-- An empty-dict test, used by the learn model for the "nothing was
learned" condition. -/
def valIsEmptyDict : Val → Bool
  | .d [] => true
  | _ => false

/-- Modelled from the spec: optional single-key contribution of one parser
output leaf to the fact dictionary. -/
def ntpLeaf (src : Val) (key : String) : List (String × Val) :=
  match src.get? key with
  | some v => [(key, v)]
  | none => []

/-- Modelled from the spec: Ntp.learn of the Ntp ops class
(`genie/libs/ops/ntp/iosxe/ntp.py`, not under src/).  It aggregates the
three parser outputs into the nested fact dictionary `info`:
`show ntp associations` and `show ntp status` feed
`info["clock_state"]["system_status"]`, `show ntp config` feeds
`info["vrf"]`.  When every parser output is empty nothing is learned and
the info attribute is never set (`none`); otherwise only the keys present
in the respective outputs appear. -/
def ntpLearn (assocs status config : Val) : Option Val :=
  if valIsEmptyDict assocs && valIsEmptyDict status
      && valIsEmptyDict config then
    none
  else
    let sysStatus : List (String × Val) :=
      ntpLeaf assocs "clock_state" ++ ntpLeaf assocs "associations_address"
      ++ ntpLeaf status "actual_freq" ++ ntpLeaf status "clock_precision"
      ++ ntpLeaf status "reference_time"
      ++ ntpLeaf status "root_dispersion"
    let clockStatePart : List (String × Val) :=
      match sysStatus with
      | [] => []
      | _ => [("clock_state", .d [("system_status", .d sysStatus)])]
    let vrfPart : List (String × Val) :=
      match config.get? "vrf" with
      | some v => [("vrf", v)]
      | none => []
    some (.d (clockStatePart ++ vrfPart))

/-- Modelled from the spec: the NtpOutput.Ntp_info fixture, the literal
expected fact dictionary of the complete-output test.  The fixture module
is not under src/. -/
def NtpOutput_Ntp_info : Val := .d [
  ("clock_state", .d [
    ("system_status", .d [
      ("clock_state", .s "synchronized"),
      ("associations_address", .s "10.16.2.2"),
      ("actual_freq", .s "1000.4589"),
      ("clock_precision", .s "2**24"),
      ("reference_time", .s "DFA02517.D2F7B9F6"),
      ("root_dispersion", .s "0.31")])]),
  ("vrf", .d [
    ("default", .d [
      ("unicast_configuration", .d [
        ("address", .d [
          ("10.4.1.1", .d [
            ("type", .d [
              ("server", .d [
                ("type", .s "server"),
                ("vrf", .s "default")])])])])])]),
    ("VRF1", .d [
      ("unicast_configuration", .d [
        ("address", .d [
          ("10.64.4.4", .d [
            ("type", .d [
              ("server", .d [
                ("type", .s "server"),
                ("vrf", .s "VRF1")])])])])])])])]

/-- Python attribute access `ntp.info`: when learn set no info fact
dictionary the attribute is missing and AttributeError is raised; when it
was set, the given key is looked up in it (KeyError when absent). -/
def ntpInfoAccess (info : Option Val) (key : String) : Except PyErr Val :=
  match info with
  | none => .error .attributeError
  | some v => v.get key

/-- Successive Python dict indexing along a path of keys. -/
def valGetPath (v : Val) : List String → Except PyErr Val
  | [] => .ok v
  | k :: rest =>
    match v.get k with
    | .ok w => valGetPath w rest
    | .error e => .error e

/-- Python `ntp.info[k1][k2]...`: attribute access on the learned info,
then successive dict indexing. -/
def ntpInfoPath (info : Option Val) (ks : List String) : Except PyErr Val :=
  match info with
  | none => .error .attributeError
  | some v => valGetPath v ks

/-- C2: running the modelled Ntp.learn on the three fixed NtpOutput mock
parser outputs yields exactly the literal expected fact dictionary
NtpOutput.Ntp_info. -/
theorem ntp_learn_complete_output_eq_expected :
    ntpLearn NtpOutput_ShowNtpAssociations NtpOutput_ShowNtpStatus
      NtpOutput_ShowNtpConfig = some NtpOutput_Ntp_info := rfl

/-- C3: running the modelled Ntp.learn on three empty parser outputs sets
no info fact dictionary, and accessing `ntp.info["clock_state"]` raises
AttributeError. -/
theorem ntp_learn_empty_output_attribute_error :
    ntpLearn (.d []) (.d []) (.d []) = none ∧
    ntpInfoAccess (ntpLearn (.d []) (.d []) (.d [])) "clock_state" =
      .error .attributeError := ⟨rfl, rfl⟩

/-- C4: with the associations and config fixtures but an empty
`show ntp status` output, the keys populated only by `show ntp status`
(actual_freq, clock_precision, reference_time, root_dispersion) are absent
and accessing them raises KeyError, while
`info["clock_state"]["system_status"]` and the config-derived vrf subtree
are still built. -/
theorem ntp_learn_incomplete_output_key_error :
    (ntpInfoPath (ntpLearn NtpOutput_ShowNtpAssociations (.d [])
        NtpOutput_ShowNtpConfig)
      ["clock_state", "system_status", "actual_freq"] = .error .keyError) ∧
    (ntpInfoPath (ntpLearn NtpOutput_ShowNtpAssociations (.d [])
        NtpOutput_ShowNtpConfig)
      ["clock_state", "system_status", "clock_precision"] =
        .error .keyError) ∧
    (ntpInfoPath (ntpLearn NtpOutput_ShowNtpAssociations (.d [])
        NtpOutput_ShowNtpConfig)
      ["clock_state", "system_status", "reference_time"] =
        .error .keyError) ∧
    (ntpInfoPath (ntpLearn NtpOutput_ShowNtpAssociations (.d [])
        NtpOutput_ShowNtpConfig)
      ["clock_state", "system_status", "root_dispersion"] =
        .error .keyError) ∧
    (ntpInfoPath (ntpLearn NtpOutput_ShowNtpAssociations (.d [])
        NtpOutput_ShowNtpConfig)
      ["clock_state", "system_status", "clock_state"] =
        .ok (.s "synchronized")) ∧
    (ntpInfoPath (ntpLearn NtpOutput_ShowNtpAssociations (.d [])
        NtpOutput_ShowNtpConfig)
      ["vrf", "VRF1", "unicast_configuration", "address", "10.64.4.4",
        "type", "server", "type"] = .ok (.s "server")) :=
  ⟨rfl, rfl, rfl, rfl, rfl, rfl⟩

/-- C10: get_interface_netmask classifies by strict comparison against the
fixed bounds: "/8" exactly below 127.0.0.0, "/16" on
[127.0.0.0, 191.255.0.0), "/24" on [191.255.0.0, 223.255.255.0), and None
at or above 223.255.255.0. -/
theorem get_interface_netmask_classification (ip : Nat) :
    (get_interface_netmask ip = some "/8" ↔ ip < ipv4 127 0 0 0) ∧
    (get_interface_netmask ip = some "/16" ↔
      ipv4 127 0 0 0 ≤ ip ∧ ip < ipv4 191 255 0 0) ∧
    (get_interface_netmask ip = some "/24" ↔
      ipv4 191 255 0 0 ≤ ip ∧ ip < ipv4 223 255 255 0) ∧
    (get_interface_netmask ip = none ↔ ipv4 223 255 255 0 ≤ ip) := by
  simp only [get_interface_netmask, ip_class, netmaskLoop, class_a,
    class_b, class_c, ipv4]
  norm_num
  split_ifs with h1 h2 h3 <;>
    simp_all <;> omega

/-! ## C1 : empty-parser handling across the getters -/

/-- A device whose parse layer always signals that the command produced no
data. -/
def emptyParseDev : Oracle :=
  fun _ => .error .schemaEmptyParserError

/-- A rate-function device whose executes succeed but whose parses of the
captured outputs always signal empty data. -/
def emptyRateDev : RateDevice where
  exec1 := .ok "raw sample one"
  exec2 := .ok "raw sample two"
  parseWith := fun _ => .error .schemaEmptyParserError
  parseCmd := fun _ => .error .schemaEmptyParserError
  delta := fun _ _ => .ok 1

/-- Bind of an Except error short-circuits. -/
theorem exceptBindErr {α β : Type} (e : PyErr)
    (f : α → Except PyErr β) :
    (Except.error e >>= f : Except PyErr β) = Except.error e := rfl

/-- C1 counterexample: get_bundled_interface does not catch
SchemaEmptyParserError — when `show etherchannel summary` yields empty
parser output the error propagates to the caller instead of a None or
empty-collection result. -/
theorem get_bundled_interface_empty_parser_propagates :
    get_bundled_interface emptyParseDev "Port-channel1" none =
      .error .schemaEmptyParserError ∧
    (Except.error .schemaEmptyParserError :
      Except PyErr (Option String)) ≠ .ok none :=
  ⟨rfl, fun h => Except.noConfusion h⟩

/-- C1 (amended): every getter of the two modules that invokes the parse
layer catches SchemaEmptyParserError locally and returns None or an empty
collection — except get_bundled_interface, which has no try/except and lets
the error propagate to the caller, and get_unused_loopback_interface, which
catches it but returns the default name "Loopback0". -/
theorem empty_parser_output_handling (dev : Oracle)
    (hdev : ∀ c, dev c = .error .schemaEmptyParserError) :
    (∀ i, get_interface_mtu_size dev i = .ok none) ∧
    (∀ i, get_interface_mac_address dev i = .ok none) ∧
    (∀ fq i, get_interface_qlimit_bytes fq dev i = .ok none) ∧
    (∀ i, get_interface_ip_address dev i = .ok none) ∧
    (∀ n, get_interface_loopback_ip_address dev n = .ok []) ∧
    (get_unused_loopback_interface dev = .ok (some "Loopback0")) ∧
    (∀ nm af, get_interface_with_mask dev nm af = .ok (none, none)) ∧
    (∀ t v, get_interface_with_up_state dev t v = .ok none) ∧
    (∀ i dt, get_interface_carrier_delay dev i dt = .ok none) ∧
    (∀ itm i p, get_interface_ip_and_mask itm dev i p =
      .ok (none, none)) ∧
    (∀ v, get_interface_interfaces_under_vrf dev v = .ok (.l [])) ∧
    (∀ i f, get_interface_packet_counter dev i f none = .ok none) ∧
    (∀ i, get_interface_switchport_access_vlan dev i = .ok none) ∧
    (∀ i, get_interface_port_channel_members dev i = .ok none) ∧
    (∀ cv v, get_interface_interfaces_ldp_enabled cv dev v = .ok []) ∧
    (get_mpls_ldp_session_count dev = .ok 0) ∧
    (∀ i, get_mpls_ldp_peer_state dev i = .ok none) ∧
    (∀ (rdev : RateDevice) (i : String) (s : Int) (o1 o2 : String),
      rdev.exec1 = .ok o1 → rdev.exec2 = .ok o2 →
      (∀ o, rdev.parseWith o = .error .schemaEmptyParserError) →
      (get_interface_packet_output_rate rdev i s).2 = .ok none) ∧
    (∀ pc ex, get_bundled_interface dev pc ex =
      .error .schemaEmptyParserError) := by
  refine ⟨?_, ?_, ?_, ?_, ?_, ?_, ?_, ?_, ?_, ?_, ?_, ?_, ?_, ?_, ?_,
    ?_, ?_, ?_, ?_⟩
  · intro i; simp only [get_interface_mtu_size, hdev]
  · intro i; simp only [get_interface_mac_address, hdev]
  · intro fq i; simp only [get_interface_qlimit_bytes, hdev]
  · intro i; simp only [get_interface_ip_address, hdev]
  · intro n; simp only [get_interface_loopback_ip_address, hdev]
  · simp only [get_unused_loopback_interface, hdev]
  · intro nm af; simp only [get_interface_with_mask, hdev]
  · intro t v; simp only [get_interface_with_up_state, hdev]
  · intro i dt; simp only [get_interface_carrier_delay, hdev]
  · intro itm i p; simp only [get_interface_ip_and_mask, hdev]
  · intro v; simp only [get_interface_interfaces_under_vrf, hdev]
  · intro i f; simp only [get_interface_packet_counter, hdev]
  · intro i; simp only [get_interface_switchport_access_vlan, hdev]
  · intro i; simp only [get_interface_port_channel_members, hdev]
  · intro cv v; simp only [get_interface_interfaces_ldp_enabled, hdev]
  · simp only [get_mpls_ldp_session_count, hdev]
  · intro i; simp only [get_mpls_ldp_peer_state, hdev]
  · intro rdev i s o1 o2 h1 h2 hp
    by_cases hs : s ≤ 0
    · simp only [get_interface_packet_output_rate, if_pos hs]
    · simp only [get_interface_packet_output_rate, if_neg hs, h1, h2,
        rateTry, hp, exceptBindErr, rateCatch]
  · intro pc ex; simp only [get_bundled_interface, hdev]

/-- C1 witness: the amended statement evaluated at the always-empty
device. -/
theorem empty_parser_output_handling_witness :
    get_interface_mtu_size emptyParseDev "GigabitEthernet1" = .ok none ∧
    get_interface_loopback_ip_address emptyParseDev 1 = .ok [] ∧
    get_unused_loopback_interface emptyParseDev = .ok (some "Loopback0") ∧
    get_mpls_ldp_session_count emptyParseDev = .ok 0 ∧
    (get_interface_packet_output_rate emptyRateDev "GigabitEthernet1"
      60).2 = .ok none := by
  obtain ⟨h1, -, -, -, h5, h6, -, -, -, -, -, -, -, -, -, h16, -, h18, -⟩ :=
    empty_parser_output_handling emptyParseDev (fun _ => rfl)
  exact ⟨h1 "GigabitEthernet1", h5 1, h6, h16,
    h18 emptyRateDev "GigabitEthernet1" 60 "raw sample one"
      "raw sample two" rfl rfl (fun _ => rfl)⟩

/-! ## C6 : SubCommandFailure handling -/

/-- A device whose execute layer always rejects the command. -/
def failExecDev : ExecOracle :=
  fun _ => .error .subCommandFailure

/-- A rate-function device whose first execute is rejected. -/
def failRateDev : RateDevice where
  exec1 := .error .subCommandFailure
  exec2 := .error .subCommandFailure
  parseWith := fun _ => .error .schemaEmptyParserError
  parseCmd := fun _ => .error .schemaEmptyParserError
  delta := fun _ _ => .ok 1

/-- C6: SubCommandFailure from a raw execute is caught in
get_interface_running_config (empty dict result) and in
get_interface_address_mask_running_config (the (None, None) tuple), while
get_interface_packet_output_rate has no handler for it and the error
propagates to the caller. -/
theorem subcommand_failure_handling :
    (∀ (convert : String → String) (gcd : String → Val) (dev : ExecOracle)
      (i : String),
      dev ("show running-config interface " ++ convert i) =
        .error .subCommandFailure →
      get_interface_running_config convert gcd dev i = .ok (.d [])) ∧
    (∀ (convert : String → String) (dev : ExecOracle) (i : String),
      dev ("show running-config interface " ++ convert i) =
        .error .subCommandFailure →
      get_interface_address_mask_running_config convert dev i =
        .ok (some (none, none))) ∧
    (∀ (rdev : RateDevice) (i : String) (s : Int), ¬ s ≤ 0 →
      rdev.exec1 = .error .subCommandFailure →
      (get_interface_packet_output_rate rdev i s).2 =
        .error .subCommandFailure) := by
  refine ⟨?_, ?_, ?_⟩
  · intro convert gcd dev i h
    simp only [get_interface_running_config, h]
  · intro convert dev i h
    simp only [get_interface_address_mask_running_config, h]
  · intro rdev i s hs h1
    simp only [get_interface_packet_output_rate, if_neg hs, h1, rateCatch]

/-- C6 witness: the three behaviours evaluated on concrete
always-rejecting devices. -/
theorem subcommand_failure_handling_witness :
    get_interface_running_config id (fun _ => .d []) failExecDev
      "GigabitEthernet1" = .ok (.d []) ∧
    get_interface_address_mask_running_config id failExecDev
      "GigabitEthernet1" = .ok (some (none, none)) ∧
    (get_interface_packet_output_rate failRateDev "GigabitEthernet1"
      60).2 = .error .subCommandFailure := by
  obtain ⟨h1, h2, h3⟩ := subcommand_failure_handling
  exact ⟨h1 id (fun _ => .d []) failExecDev "GigabitEthernet1" rfl,
    h2 id failExecDev "GigabitEthernet1" rfl,
    h3 failRateDev "GigabitEthernet1" 60 (by decide) rfl⟩

/-! ## C7 : statelessness and determinism -/

/-- C7: the getters are pure functions of the device responses: a repeated
call with the same device responses returns the same value, and the result
depends only on the response to the one command the function issues — two
devices that agree on that command produce equal results, whatever else
they answer. -/
theorem getter_stateless_deterministic :
    (∀ d : Oracle, get_mpls_ldp_session_count d =
      get_mpls_ldp_session_count d) ∧
    (∀ (d : Oracle) (i : String), get_interface_ip_address d i =
      get_interface_ip_address d i) ∧
    (∀ d1 d2 : Oracle,
      d1 "show mpls ldp neighbor" = d2 "show mpls ldp neighbor" →
      get_mpls_ldp_session_count d1 = get_mpls_ldp_session_count d2) ∧
    (∀ (d1 d2 : Oracle) (i : String),
      d1 ("show ip interface brief " ++ i) =
        d2 ("show ip interface brief " ++ i) →
      get_interface_ip_address d1 i = get_interface_ip_address d2 i) := by
  refine ⟨fun d => rfl, fun d i => rfl, ?_, ?_⟩
  · intro d1 d2 h
    simp only [get_mpls_ldp_session_count, h]
  · intro d1 d2 i h
    simp only [get_interface_ip_address, h]

/-- A device answering the LDP neighbor query with one peer in the default
vrf and empty parser output for everything else. -/
def ldpDevA : Oracle := fun c =>
  if c = "show mpls ldp neighbor" then
    .ok (.d [("vrf", .d [("default", .d [("peers",
      .d [("10.0.0.1", .d [])])])])])
  else
    .error .schemaEmptyParserError

/-- A device answering the LDP neighbor query like ldpDevA but behaving
differently on every other command. -/
def ldpDevB : Oracle := fun c =>
  if c = "show mpls ldp neighbor" then
    .ok (.d [("vrf", .d [("default", .d [("peers",
      .d [("10.0.0.1", .d [])])])])])
  else
    .ok (.d [("unrelated", .s "data")])

/-- C7 witness: two concrete devices agreeing only on the LDP neighbor
command give the same session count, and a repeated call is stable. -/
theorem getter_stateless_deterministic_witness :
    get_mpls_ldp_session_count ldpDevA = get_mpls_ldp_session_count ldpDevB ∧
    get_interface_ip_address ldpDevA "GigabitEthernet1" =
      get_interface_ip_address ldpDevA "GigabitEthernet1" := by
  obtain ⟨hrep, -, hcount, -⟩ := getter_stateless_deterministic
  exact ⟨hcount ldpDevA ldpDevB rfl, by
    have h := getter_stateless_deterministic
    exact h.2.1 ldpDevA "GigabitEthernet1"⟩

/-! ## C8 : get_interface_loopback_ip_address -/

/-- Invariant of the collection loop of get_interface_loopback_ip_address:
the collected names are a sublist of the traversed keys, every collected
name contains "Loopback", and while the running count is still below num
the loop collects at most num - count pairs. -/
theorem loopbackLoop_spec (entries : List (String × Val)) (num : Int) :
    ∀ (keys : List String) (count : Int) (l : List (String × Val)),
    loopbackLoop entries num keys count = .ok l →
    (l.map Prod.fst).Sublist keys ∧
    (∀ p ∈ l, strContains "Loopback" p.1 = true) ∧
    (count < num → (l.length : Int) + count ≤ num) := by
  intro keys
  induction keys with
  | nil =>
    intro count l h
    simp only [loopbackLoop] at h
    injection h with h'
    subst h'
    refine ⟨by simp, by simp, ?_⟩
    intro hcn
    simp
    omega
  | cons intf rest ih =>
    intro count l h
    simp only [loopbackLoop] at h
    split at h
    · rename_i hc
      split at h
      · exact Except.noConfusion h
      · rename_i entry heqe
        split at h
        · exact Except.noConfusion h
        · rename_i ip heqip
          split at h
          · rename_i hn
            injection h with h'
            subst h'
            refine ⟨?_, ?_, ?_⟩
            · simp
            · intro p hp
              rcases List.mem_singleton.mp hp with rfl
              exact hc
            · intro hcn
              simp
              omega
          · rename_i hn
            split at h
            · exact Except.noConfusion h
            · rename_i tail hrec
              injection h with h'
              subst h'
              obtain ⟨hsub, hmem, hlen⟩ := ih (count + 1) tail hrec
              refine ⟨?_, ?_, ?_⟩
              · simpa using List.Sublist.cons₂ intf hsub
              · intro p hp
                rcases List.mem_cons.mp hp with rfl | h1
                · exact hc
                · exact hmem p h1
              · intro hcn
                by_cases h2 : count + 1 < num
                · have := hlen h2
                  simp only [List.length_cons]
                  push_cast
                  omega
                · omega
    · rename_i hc
      obtain ⟨hsub, hmem, hlen⟩ := ih count l h
      refine ⟨hsub.cons intf, hmem, ?_⟩
      intro hcn
      exact hlen hcn

/-- C8 counterexample: with num = 0 the count check `count == num` is
reached only after the count became 1, so it never fires and the function
returns every loopback pair — more than num of them. -/
def loopbackDev : Oracle := fun _ =>
  .ok (.d [("interface", .d [
    ("Loopback0", .d [("ip_address", .s "10.0.0.1")]),
    ("Loopback1", .d [("ip_address", .s "10.0.0.2")])])])

/-- C8 counterexample: at num = 0 the device with two loopbacks yields a
two-element list, refuting "always returns a list of at most num pairs". -/
theorem get_interface_loopback_ip_address_num_zero :
    get_interface_loopback_ip_address loopbackDev 0 =
      .ok [("Loopback0", .s "10.0.0.1"), ("Loopback1", .s "10.0.0.2")] ∧
    ¬ (((([("Loopback0", Val.s "10.0.0.1"),
        ("Loopback1", Val.s "10.0.0.2")] : List (String × Val)).length :
        Int)) ≤ 0) :=
  ⟨rfl, by decide⟩

/-- C8 (amended): get_interface_loopback_ip_address returns the empty list
on empty parser output; every returned pair names an interface containing
"Loopback"; the pairs are in ascending lexicographic order of interface
name; and the list has at most num pairs provided num ≥ 1 (for num ≤ 0 the
stop check never fires and every loopback pair is returned). -/
theorem get_interface_loopback_ip_address_spec (dev : Oracle) (num : Int) :
    (dev "show ip interface brief | include Loopback" =
        .error .schemaEmptyParserError →
      get_interface_loopback_ip_address dev num = .ok []) ∧
    (∀ (out : Val) (entries : List (String × Val))
        (l : List (String × Val)),
      dev "show ip interface brief | include Loopback" = .ok out →
      out.get "interface" = .ok (.d entries) →
      get_interface_loopback_ip_address dev num = .ok l →
      (∀ p ∈ l, strContains "Loopback" p.1 = true) ∧
      List.Sorted strLexLe (l.map Prod.fst) ∧
      (1 ≤ num → (l.length : Int) ≤ num)) := by
  constructor
  · intro h
    simp only [get_interface_loopback_ip_address, h]
  · intro out entries l hdev hout h
    simp only [get_interface_loopback_ip_address, hdev, hout] at h
    obtain ⟨hsub, hmem, hlen⟩ := loopbackLoop_spec entries num
      (pySorted (entries.map Prod.fst)) 0 l h
    refine ⟨hmem, ?_, ?_⟩
    · exact List.Pairwise.sublist hsub
        (List.sorted_insertionSort strLexLe (entries.map Prod.fst))
    · intro hnum
      have := hlen (by omega)
      omega

/-- C8 witness: the amended statement evaluated on the concrete two
loopback device at num = 1 and on the always-empty device. -/
theorem get_interface_loopback_ip_address_spec_witness :
    get_interface_loopback_ip_address emptyParseDev 1 = .ok [] ∧
    (∀ p ∈ [(("Loopback0" : String), Val.s "10.0.0.1")],
      strContains "Loopback" p.1 = true) ∧
    (((([(("Loopback0" : String), Val.s "10.0.0.1")] :
      List (String × Val)).length : Int)) ≤ 1) := by
  obtain ⟨he, hspec⟩ :=
    get_interface_loopback_ip_address_spec emptyParseDev 1
  refine ⟨he rfl, ?_, ?_⟩
  · obtain ⟨h1, h2, h3⟩ := (get_interface_loopback_ip_address_spec
      loopbackDev 1).2
      (.d [("interface", .d [
        ("Loopback0", .d [("ip_address", .s "10.0.0.1")]),
        ("Loopback1", .d [("ip_address", .s "10.0.0.2")])])])
      [("Loopback0", .d [("ip_address", .s "10.0.0.1")]),
        ("Loopback1", .d [("ip_address", .s "10.0.0.2")])]
      [("Loopback0", .s "10.0.0.1")] rfl rfl rfl
    exact h1
  · obtain ⟨h1, h2, h3⟩ := (get_interface_loopback_ip_address_spec
      loopbackDev 1).2
      (.d [("interface", .d [
        ("Loopback0", .d [("ip_address", .s "10.0.0.1")]),
        ("Loopback1", .d [("ip_address", .s "10.0.0.2")])])])
      [("Loopback0", .d [("ip_address", .s "10.0.0.1")]),
        ("Loopback1", .d [("ip_address", .s "10.0.0.2")])]
      [("Loopback0", .s "10.0.0.1")] rfl rfl rfl
    exact h3 (by decide)

/-! ## C5 and C9 : the packet output rate function -/

/-- Bind of an Except success applies the continuation. -/
theorem exceptBindOk {α β : Type} (a : α) (f : α → Except PyErr β) :
    (Except.ok a >>= f : Except PyErr β) = f a := rfl

/-- pure in the Except monad is ok. -/
theorem exceptPure {α : Type} (a : α) :
    (pure a : Except PyErr α) = .ok a := rfl

/-- valToInt succeeds exactly on int values. -/
theorem valToInt_ok {v : Val} {n : Int} (h : valToInt v = .ok n) :
    v = .i n := by
  cases v <;> simp_all [valToInt]

/-- The SchemaEmptyParserError/ValueError catch cannot manufacture a rate:
a some-result survives the catch unchanged. -/
theorem rateCatch_ok_some {x : Except PyErr (Option Rat)} {r : Rat}
    (h : rateCatch x = .ok (some r)) : x = .ok (some r) := by
  cases x with
  | ok v => exact h
  | error e => cases e <;> simp [rateCatch] at h

/-- Characterisation of a successful rate computation: the try block
returns some rate exactly by parsing both captured outputs, computing the
elapsed time, finding both out_pkts counters present and truthy, and
returning the rounded counter difference divided by the elapsed time. -/
theorem rateTry_ok_some (rdev : RateDevice) (i o1 o2 : String) (r : Rat)
    (h : rateTry rdev i o1 o2 = .ok (some r)) :
    ∃ (p1 p2 : Val) (d : Rat) (cb ca : Val) (nb na : Int),
      rdev.parseWith o1 = .ok p1 ∧ rdev.parseWith o2 = .ok p2 ∧
      rdev.delta o1 o2 = .ok d ∧
      get_interface_packet_counter rdev.parseCmd i "out_pkts" (some p1) =
        .ok (some cb) ∧
      get_interface_packet_counter rdev.parseCmd i "out_pkts" (some p2) =
        .ok (some ca) ∧
      valTruthy cb = true ∧ valTruthy ca = true ∧
      cb = .i nb ∧ ca = .i na ∧ d ≠ 0 ∧
      r = pyRound2 (((na : Rat) - (nb : Rat)) / d) := by
  unfold rateTry at h
  cases hp1 : rdev.parseWith o1 with
  | error e => simp only [hp1, exceptBindErr] at h; exact Except.noConfusion h
  | ok p1 =>
  simp only [hp1, exceptBindOk] at h
  cases hp2 : rdev.parseWith o2 with
  | error e => simp only [hp2, exceptBindErr] at h; exact Except.noConfusion h
  | ok p2 =>
  simp only [hp2, exceptBindOk] at h
  cases hd : rdev.delta o1 o2 with
  | error e => simp only [hd, exceptBindErr] at h; exact Except.noConfusion h
  | ok d =>
  simp only [hd, exceptBindOk] at h
  cases hcb : get_interface_packet_counter rdev.parseCmd i "out_pkts"
      (some p1) with
  | error e => simp only [hcb, exceptBindErr] at h; exact Except.noConfusion h
  | ok cbo =>
  simp only [hcb, exceptBindOk] at h
  cases cbo with
  | none => simp only [exceptPure] at h; simp at h
  | some cb =>
  by_cases htb : valTruthy cb
  · simp only [htb, Bool.not_true, Bool.false_eq_true, if_false] at h
    cases hca : get_interface_packet_counter rdev.parseCmd i "out_pkts"
        (some p2) with
    | error e =>
      simp only [hca, exceptBindErr] at h; exact Except.noConfusion h
    | ok cao =>
    simp only [hca, exceptBindOk] at h
    cases cao with
    | none => simp only [exceptPure] at h; simp at h
    | some ca =>
    by_cases hta : valTruthy ca
    · simp only [hta, Bool.not_true, Bool.false_eq_true, if_false] at h
      cases hnb : valToInt cb with
      | error e =>
        simp only [hnb, exceptBindErr] at h; exact Except.noConfusion h
      | ok nb =>
      simp only [hnb, exceptBindOk] at h
      cases hna : valToInt ca with
      | error e =>
        simp only [hna, exceptBindErr] at h; exact Except.noConfusion h
      | ok na =>
      simp only [hna, exceptBindOk] at h
      by_cases hdz : d = 0
      · rw [if_pos hdz] at h
        exact Except.noConfusion h
      · rw [if_neg hdz] at h
        simp only [exceptPure] at h
        injection h with h'
        injection h' with h''
        exact ⟨p1, p2, d, cb, ca, nb, na, rfl, rfl, rfl, hcb, hca, htb,
          hta, valToInt_ok hnb, valToInt_ok hna, hdz, h''.symm⟩
    · simp only [eq_false_of_ne_true hta, Bool.not_false, if_true,
        exceptPure] at h
      simp at h
  · simp only [eq_false_of_ne_true htb, Bool.not_false, if_true,
      exceptPure] at h
    simp at h

/-- C5: with a positive seconds argument the function performs exactly two
executes of the show command with the sleep of `seconds` between them —
sample, wait, sample — and any returned rate equals the difference of the
two sampled out_pkts counters divided by the elapsed time between the
samples, rounded to two decimal places. -/
theorem rate_two_samples_and_value (rdev : RateDevice) (i : String)
    (seconds : Int) (o1 o2 : String) (hs : 0 < seconds)
    (h1 : rdev.exec1 = .ok o1) (h2 : rdev.exec2 = .ok o2) :
    (get_interface_packet_output_rate rdev i seconds).1 =
      [.exec (rateCmd i), .sleep seconds, .exec (rateCmd i)] ∧
    (∀ r : Rat, (get_interface_packet_output_rate rdev i seconds).2 =
        .ok (some r) →
      ∃ (p1 p2 : Val) (d : Rat) (cb ca : Val) (nb na : Int),
        rdev.parseWith o1 = .ok p1 ∧ rdev.parseWith o2 = .ok p2 ∧
        rdev.delta o1 o2 = .ok d ∧
        get_interface_packet_counter rdev.parseCmd i "out_pkts"
          (some p1) = .ok (some cb) ∧
        get_interface_packet_counter rdev.parseCmd i "out_pkts"
          (some p2) = .ok (some ca) ∧
        valTruthy cb = true ∧ valTruthy ca = true ∧
        cb = .i nb ∧ ca = .i na ∧ d ≠ 0 ∧
        r = pyRound2 (((na : Rat) - (nb : Rat)) / d)) := by
  have hns : ¬ seconds ≤ 0 := by omega
  constructor
  · simp only [get_interface_packet_output_rate, if_neg hns, h1, h2]
  · intro r hr
    simp only [get_interface_packet_output_rate, if_neg hns, h1, h2] at hr
    exact rateTry_ok_some rdev i o1 o2 r (rateCatch_ok_some hr)

/-- A concrete device for the rate function: counters 100 then 300,
elapsed time 2, so the rate is 100.0. -/
def rateDevW : RateDevice where
  exec1 := .ok "raw sample 1"
  exec2 := .ok "raw sample 2"
  parseWith := fun o =>
    if o = "raw sample 1" then
      .ok (.d [("GigabitEthernet1", .d [("counters",
        .d [("out_pkts", .i 100)])])])
    else
      .ok (.d [("GigabitEthernet1", .d [("counters",
        .d [("out_pkts", .i 300)])])])
  parseCmd := fun _ => .error .schemaEmptyParserError
  delta := fun _ _ => .ok 2

/-- C5 witness: the concrete device samples twice with the sleep between
and yields the rate (300 - 100) / 2 = 100.0. -/
theorem rate_two_samples_and_value_witness :
    (get_interface_packet_output_rate rateDevW "GigabitEthernet1" 2).1 =
      [.exec (rateCmd "GigabitEthernet1"), .sleep 2,
        .exec (rateCmd "GigabitEthernet1")] ∧
    (get_interface_packet_output_rate rateDevW "GigabitEthernet1" 2).2 =
      .ok (some 100) := by
  refine ⟨(rate_two_samples_and_value rateDevW "GigabitEthernet1" 2
    "raw sample 1" "raw sample 2" (by decide) rfl rfl).1, ?_⟩
  have hstep : (get_interface_packet_output_rate rateDevW
      "GigabitEthernet1" 2).2 =
      .ok (some (pyRound2 ((((300 : Int) : Rat) - ((100 : Int) : Rat)) /
        (2 : Rat)))) := rfl
  have hval : pyRound2 ((((300 : Int) : Rat) - ((100 : Int) : Rat)) /
      (2 : Rat)) = 100 := by
    norm_num [pyRound2]
  rw [hstep, hval]

/-- C9: get_interface_packet_output_rate returns None with no device
command and no sleep when seconds is not positive; it returns None whenever
a sampled out_pkts counter is absent or zero; and a rate is returned only
when both sampled counters are present and nonzero. -/
theorem rate_none_guards :
    (∀ (rdev : RateDevice) (i : String) (s : Int), s ≤ 0 →
      get_interface_packet_output_rate rdev i s = ([], .ok none)) ∧
    (∀ (rdev : RateDevice) (i : String) (s : Int) (o1 o2 : String)
        (p1 p2 : Val) (d : Rat), ¬ s ≤ 0 →
      rdev.exec1 = .ok o1 → rdev.exec2 = .ok o2 →
      rdev.parseWith o1 = .ok p1 → rdev.parseWith o2 = .ok p2 →
      rdev.delta o1 o2 = .ok d →
      (get_interface_packet_counter rdev.parseCmd i "out_pkts"
          (some p1) = .ok none ∨
        get_interface_packet_counter rdev.parseCmd i "out_pkts"
          (some p1) = .ok (some (.i 0))) →
      (get_interface_packet_output_rate rdev i s).2 = .ok none) ∧
    (∀ (rdev : RateDevice) (i : String) (s : Int) (o1 o2 : String)
        (p1 p2 : Val) (d : Rat) (cb : Val), ¬ s ≤ 0 →
      rdev.exec1 = .ok o1 → rdev.exec2 = .ok o2 →
      rdev.parseWith o1 = .ok p1 → rdev.parseWith o2 = .ok p2 →
      rdev.delta o1 o2 = .ok d →
      get_interface_packet_counter rdev.parseCmd i "out_pkts"
        (some p1) = .ok (some cb) →
      valTruthy cb = true →
      (get_interface_packet_counter rdev.parseCmd i "out_pkts"
          (some p2) = .ok none ∨
        get_interface_packet_counter rdev.parseCmd i "out_pkts"
          (some p2) = .ok (some (.i 0))) →
      (get_interface_packet_output_rate rdev i s).2 = .ok none) ∧
    (∀ (rdev : RateDevice) (i : String) (s : Int) (r : Rat),
      (get_interface_packet_output_rate rdev i s).2 = .ok (some r) →
      ∃ (o1 o2 : String) (p1 p2 : Val) (nb na : Int),
        rdev.exec1 = .ok o1 ∧ rdev.exec2 = .ok o2 ∧
        rdev.parseWith o1 = .ok p1 ∧ rdev.parseWith o2 = .ok p2 ∧
        get_interface_packet_counter rdev.parseCmd i "out_pkts"
          (some p1) = .ok (some (.i nb)) ∧
        get_interface_packet_counter rdev.parseCmd i "out_pkts"
          (some p2) = .ok (some (.i na)) ∧
        nb ≠ 0 ∧ na ≠ 0) := by
  refine ⟨?_, ?_, ?_, ?_⟩
  · intro rdev i s hs
    simp only [get_interface_packet_output_rate, if_pos hs]
  · intro rdev i s o1 o2 p1 p2 d hs h1 h2 hp1 hp2 hd hcb
    simp only [get_interface_packet_output_rate, if_neg hs, h1, h2]
    unfold rateTry
    rcases hcb with hcb | hcb <;>
      simp [hp1, hp2, hd, hcb, exceptBindOk, exceptPure, valTruthy,
        rateCatch]
  · intro rdev i s o1 o2 p1 p2 d cb hs h1 h2 hp1 hp2 hd hcb htb hca
    simp only [get_interface_packet_output_rate, if_neg hs, h1, h2]
    unfold rateTry
    rcases hca with hca | hca <;>
      simp [hp1, hp2, hd, hcb, hca, htb, exceptBindOk, exceptPure,
        valTruthy, rateCatch]
  · intro rdev i s r hr
    by_cases hs : s ≤ 0
    · simp only [get_interface_packet_output_rate, if_pos hs] at hr
      simp at hr
    · simp only [get_interface_packet_output_rate, if_neg hs] at hr
      cases h1 : rdev.exec1 with
      | error e =>
        rw [h1] at hr
        have := rateCatch_ok_some hr
        exact Except.noConfusion this
      | ok o1 =>
        rw [h1] at hr
        cases h2 : rdev.exec2 with
        | error e =>
          rw [h2] at hr
          have := rateCatch_ok_some hr
          exact Except.noConfusion this
        | ok o2 =>
          rw [h2] at hr
          obtain ⟨p1, p2, d, cb, ca, nb, na, hp1, hp2, hd, hcb, hca, htb,
            hta, hcbi, hcai, hdz, hrv⟩ :=
            rateTry_ok_some rdev i o1 o2 r (rateCatch_ok_some hr)
          subst hcbi
          subst hcai
          refine ⟨o1, o2, p1, p2, nb, na, rfl, rfl, hp1, hp2, hcb, hca,
            ?_, ?_⟩
          · simpa [valTruthy] using htb
          · simpa [valTruthy] using hta

/-- A concrete device whose sampled out_pkts counters are zero. -/
def rateDevZ : RateDevice where
  exec1 := .ok "raw sample 1"
  exec2 := .ok "raw sample 2"
  parseWith := fun _ =>
    .ok (.d [("GigabitEthernet1", .d [("counters",
      .d [("out_pkts", .i 0)])])])
  parseCmd := fun _ => .error .schemaEmptyParserError
  delta := fun _ _ => .ok 2

/-- C9 witness: no trace and a None result at seconds = 0; a None result
for the zero-counter device; and the nonzero-counter consequence evaluated
on the device that does return a rate. -/
theorem rate_none_guards_witness :
    get_interface_packet_output_rate rateDevZ "GigabitEthernet1" 0 =
      ([], .ok none) ∧
    (get_interface_packet_output_rate rateDevZ "GigabitEthernet1" 2).2 =
      .ok none ∧
    ∃ (o1 o2 : String) (p1 p2 : Val) (nb na : Int),
      rateDevW.exec1 = .ok o1 ∧ rateDevW.exec2 = .ok o2 ∧
      rateDevW.parseWith o1 = .ok p1 ∧ rateDevW.parseWith o2 = .ok p2 ∧
      get_interface_packet_counter rateDevW.parseCmd "GigabitEthernet1"
        "out_pkts" (some p1) = .ok (some (.i nb)) ∧
      get_interface_packet_counter rateDevW.parseCmd "GigabitEthernet1"
        "out_pkts" (some p2) = .ok (some (.i na)) ∧
      nb ≠ 0 ∧ na ≠ 0 := by
  obtain ⟨hzero, hbefore, hafter, hnz⟩ := rate_none_guards
  refine ⟨hzero rateDevZ "GigabitEthernet1" 0 (by decide), ?_, ?_⟩
  · exact hbefore rateDevZ "GigabitEthernet1" 2 "raw sample 1"
      "raw sample 2"
      (.d [("GigabitEthernet1", .d [("counters", .d [("out_pkts",
        .i 0)])])])
      (.d [("GigabitEthernet1", .d [("counters", .d [("out_pkts",
        .i 0)])])])
      2 (by decide) rfl rfl rfl rfl rfl (Or.inr rfl)
  · refine hnz rateDevW "GigabitEthernet1" 2 100 ?_
    have hstep : (get_interface_packet_output_rate rateDevW
        "GigabitEthernet1" 2).2 =
        .ok (some (pyRound2 ((((300 : Int) : Rat) - ((100 : Int) : Rat)) /
          (2 : Rat)))) := rfl
    have hval : pyRound2 ((((300 : Int) : Rat) - ((100 : Int) : Rat)) /
        (2 : Rat)) = 100 := by
      norm_num [pyRound2]
    rw [hstep, hval]
